import Mathlib

/-!
Verification development for the mini-diarium key-management and
versioned-storage subsystem (Rust sources under `src-tauri/src`).

The Rust code is shallowly embedded:

* Byte strings are `List Nat` (each element one byte value).
* The external cryptographic crates (`aes_gcm`, `argon2`, `x25519_dalek`,
  `hkdf`) are modelled ideally and symbolically: an AEAD ciphertext is a
  record holding the encrypting key bytes, the nonce and the plaintext, and
  decryption succeeds exactly when the key matches; an Argon2 PHC record is
  a record holding the password and the salt, and verification succeeds
  exactly when the password matches; X25519 scalars are naturals with the
  Diffie-Hellman shared secret modelled by the commutative product.
* Randomness (nonces, salts, master keys, ephemeral secrets) is passed in
  explicitly as arguments, mirroring the `OsRng` draws of the source.
* SQLite state is a record of tables; transactions are modelled by staging
  the mutations on a copy of the state and discarding the copy on rollback.
* Fallible Rust functions returning `Result<T, String>` become
  `Except String T`.

Each Rust function keeps its source name.  Functions that in the source
perform file I/O (pre-migration backups) take an explicit `backupOk`
argument standing for the success of the file copy, and migration steps
additionally return a trace of events so that ordering properties
(backup-before-mutation) can be stated.
-/

namespace MiniDiarium

deriving instance DecidableEq for Except

/-- Byte strings of the embedding (`Vec<u8>` / `&[u8]` in the source). -/
abbrev Bytes := List Nat

/-- Injective-by-construction encoding of a string into a natural number,
used to manufacture distinct symbolic values from strings. -/
def strEncode (s : String) : Nat :=
  s.data.foldl (fun a c => a * 1114112 + c.toNat + 1) 1

/-- Encoding of a string into bytes, modelling `str::as_bytes` at the level
of character codes. -/
def strBytes (s : String) : Bytes :=
  s.data.map Char.toNat

/-- Decoding bytes back into a string, modelling `String::from_utf8`: it
fails when some byte value is not a valid character code. -/
def bytesToString (b : Bytes) : Except String String :=
  if b.all (fun n => decide (Nat.isValidChar n)) then
    .ok (String.mk (b.map Char.ofNat))
  else
    .error "invalid utf-8 sequence"

namespace cipher

/-- Size of an AES-256 key in bytes (`KEY_SIZE` in `crypto/cipher.rs`). -/
def KEY_SIZE : Nat := 32

/-- A 256-bit AEAD key (`cipher::Key`, a zeroizing 32-byte array). -/
structure Key where
  data : Bytes
deriving DecidableEq, Repr

/-- Constructs a key from a byte slice; `none` unless the slice is exactly
32 bytes (`Key::from_slice`). -/
def Key.from_slice (bytes : Bytes) : Option Key :=
  if bytes.length = KEY_SIZE then some ⟨bytes⟩ else none

/-- Symbolic AES-256-GCM ciphertext: the record of the encrypting key
bytes, the nonce and the plaintext.  In the source this is the byte blob
`nonce(12) ‖ ciphertext ‖ tag(16)`. -/
structure AeadCt where
  key : Bytes
  nonce : Nat
  plaintext : Bytes
deriving DecidableEq, Repr

/-- Source `cipher::encrypt`: AEAD-encrypts `plaintext` under `key` with the given
fresh `nonce` (the source draws the nonce from `OsRng`; here it is an
explicit argument). -/
def encrypt (key : Key) (nonce : Nat) (plaintext : Bytes) : AeadCt :=
  ⟨key.data, nonce, plaintext⟩

/-- Source `cipher::decrypt`: succeeds with the original plaintext exactly when
the key matches the one used to encrypt, mirroring AEAD tag
authentication. -/
def decrypt (key : Key) (ct : AeadCt) : Except String Bytes :=
  if ct.key = key.data then .ok ct.plaintext
  else .error "Decryption failed: aead::Error"

end cipher

namespace pwd

/-- Symbolic Argon2id PHC record (`crypto/password.rs` produces a PHC
format string embedding algorithm parameters, the salt and the hash; the
only information relevant to the embedding is the hashed password and the
salt). -/
structure PhcHash where
  password : String
  salt : Nat
deriving DecidableEq, Repr

/-- Source `password::hash_password`: derives the PHC record for `password` under
`salt` (deterministic for a fixed salt, as in the source). -/
def hash_password (password : String) (salt : Nat) : PhcHash :=
  ⟨password, salt⟩

/-- Source `password::verify_password`: recomputes and compares; succeeds exactly
when the candidate password matches the one hashed into the record. -/
def verify_password (password : String) (h : PhcHash) : Except String Unit :=
  if h.password = password then .ok ()
  else .error "Password verification failed: invalid password"

/-- Modelled from the spec: `derive_key_from_phc_hash` is referenced from
`auth/password.rs` and `db/schema.rs` but its definition is not among the
provided sources.  Per spec §4.2, `derive_symmetric_key(record) -> 32
bytes` "extracts a fixed-size wrapping key deterministically from the
record's hash output (same record ⇒ same derived key, always)"; it is
modelled as a deterministic 32-byte value computed from the record. -/
def derive_key_from_phc_hash (h : PhcHash) : Bytes :=
  List.replicate cipher.KEY_SIZE (Nat.pair (strEncode h.password) h.salt)

end pwd

/-- The `wrapped_key` blob produced by `PasswordMethod::wrap_master_key`.
In the source this is the byte string
`[phc_len: u32 LE][phc_record][nonce ‖ ciphertext ‖ tag]`; symbolically it
is the embedded PHC record together with the AEAD encryption of the master
key. -/
structure PwWrappedKey where
  phc : pwd.PhcHash
  encrypted : cipher.AeadCt
deriving DecidableEq, Repr

namespace PasswordMethod

/-- Source `PasswordMethod::wrap_master_key` (`auth/password.rs`): hashes the
password with a fresh `salt`, derives the wrapping key from the PHC
record, AEAD-encrypts the master key under it with a fresh `nonce`, and
returns the blob. -/
def wrap_master_key (password : String) (salt : Nat) (nonce : Nat)
    (master_key : Bytes) : Except String PwWrappedKey :=
  let phc_hash := pwd.hash_password password salt
  let wrapping_key_bytes := pwd.derive_key_from_phc_hash phc_hash
  match cipher.Key.from_slice wrapping_key_bytes with
  | none => .error "Invalid wrapping key size"
  | some wrap_key =>
    .ok ⟨phc_hash, cipher.encrypt wrap_key nonce master_key⟩

/-- Source `PasswordMethod::unwrap_master_key` (`auth/password.rs`): verifies the
password against the embedded PHC record (failure reported as
"Incorrect password"), re-derives the wrapping key from the same record,
and AEAD-decrypts (an authentication failure is likewise reported as
"Incorrect password"). -/
def unwrap_master_key (password : String) (wrapped : PwWrappedKey) :
    Except String Bytes :=
  match pwd.verify_password password wrapped.phc with
  | .error _ => .error "Incorrect password"
  | .ok _ =>
    let wrapping_key_bytes := pwd.derive_key_from_phc_hash wrapped.phc
    match cipher.Key.from_slice wrapping_key_bytes with
    | none => .error "Invalid wrapping key size"
    | some wrap_key =>
      match cipher.decrypt wrap_key wrapped.encrypted with
      | .error _ => .error "Incorrect password"
      | .ok master_key => .ok master_key

end PasswordMethod

namespace x25519

/-- Source `PublicKey::from(&secret)`: the public key derived from a scalar.  The
symbolic model identifies the public key with the scalar (the claims never
rely on the one-wayness of the map). -/
def pubOf (secret : Nat) : Nat := secret

/-- Source `diffie_hellman`: the ECDH shared secret, modelled by the product so
that `dh a (pubOf b) = dh b (pubOf a)` as for real X25519. -/
def dh (secret : Nat) (their_public : Nat) : Nat := secret * their_public

end x25519

/-- Source `Hkdf::<Sha256>::new(salt, ikm).expand(HKDF_INFO, ..)`: deterministic
32-byte key derivation from the salt and the input key material. -/
def hkdfSha256 (salt : Nat) (ikm : Nat) : Bytes :=
  List.replicate cipher.KEY_SIZE (Nat.pair salt ikm)

/-- The `wrapped_key` blob produced by `KeypairMethod::wrap_master_key`.
In the source this is `[eph_pub: 32][nonce ‖ ciphertext ‖ tag]` (92 bytes
for a 32-byte master key); symbolically the ephemeral public key together
with the AEAD encryption of the master key. -/
structure KpWrappedKey where
  eph_pub : Nat
  encrypted : cipher.AeadCt
deriving DecidableEq, Repr

namespace KeypairMethod

/-- Source `KeypairMethod::wrap_master_key` (`auth/keypair.rs`): generates an
ephemeral keypair (`eph_secret` is the explicit `OsRng` draw), computes
the ECDH shared secret with the recipient public key, derives the wrapping
key via HKDF-SHA256 salted with the ephemeral public key, AEAD-encrypts
the master key with a fresh `nonce`, and returns the blob. -/
def wrap_master_key (public_key : Nat) (eph_secret : Nat) (nonce : Nat)
    (master_key : Bytes) : Except String KpWrappedKey :=
  let eph_public := x25519.pubOf eph_secret
  let shared_secret := x25519.dh eph_secret public_key
  let wrapping_key := hkdfSha256 eph_public shared_secret
  match cipher.Key.from_slice wrapping_key with
  | none => .error "Invalid wrapping key size"
  | some wrap_key =>
    .ok ⟨eph_public, cipher.encrypt wrap_key nonce master_key⟩

end KeypairMethod

namespace PrivateKeyMethod

/-- Source `PrivateKeyMethod::unwrap_master_key` (`auth/keypair.rs`): extracts the
ephemeral public key from the blob, recomputes the shared secret with the
recipient private key, derives the wrapping key by the same HKDF, and
AEAD-decrypts. -/
def unwrap_master_key (private_key : Nat) (wrapped : KpWrappedKey) :
    Except String Bytes :=
  let eph_pub := wrapped.eph_pub
  let shared_secret := x25519.dh private_key eph_pub
  let wrapping_key := hkdfSha256 eph_pub shared_secret
  match cipher.Key.from_slice wrapping_key with
  | none => .error "Invalid wrapping key size"
  | some wrap_key =>
    match cipher.decrypt wrap_key wrapped.encrypted with
    | .error _ =>
      .error "Failed to decrypt master key: wrong private key or corrupted data"
    | .ok master_key => .ok master_key

end PrivateKeyMethod

/-!
Byte-level front end of the two unwrap functions.  For the minimum-length
claims the exact byte framing matters, so the functions are re-traced here
over raw byte strings.  Calls into the external crates are taken from an
explicit record of operations (`PwCrypto` / `KpCrypto`, modelling whatever
`argon2` / `x25519_dalek` / `hkdf` / `aes_gcm` compute), and every such
call is recorded in a trace so that "no cryptographic work before the
length check" is a statement about the trace.
-/

/-- One invocation of an external cryptographic primitive. -/
inductive CryptoOp
| argon2Verify
| deriveKey
| aeadDecrypt
| dhExchange
| hkdfExpand
deriving DecidableEq, Repr

/-- External calls made by `PasswordMethod::unwrap_master_key`: Argon2
verification against a PHC string, wrapping-key derivation, and AEAD
decryption. -/
structure PwCrypto where
  verify_password : String → String → Except String Unit
  derive_key_from_phc_hash : String → Except String Bytes
  decrypt : Bytes → Bytes → Except String Bytes

/-- External calls made by `PrivateKeyMethod::unwrap_master_key`: the
X25519 Diffie-Hellman exchange, the HKDF expansion, and AEAD
decryption. -/
structure KpCrypto where
  dh : Bytes → Bytes → Bytes
  hkdf_expand : Bytes → Bytes → Except String Bytes
  decrypt : Bytes → Bytes → Except String Bytes

/-- Source `u32::from_le_bytes` on a 4-byte slice. -/
def u32_from_le_bytes (b : Bytes) : Nat :=
  match b with
  | [b0, b1, b2, b3] => b0 + 256 * b1 + 65536 * b2 + 16777216 * b3
  | _ => 0

/-- Byte-level `PasswordMethod::unwrap_master_key` (`auth/password.rs`
lines 53-91): length check, little-endian PHC length parse, truncation
check, UTF-8 decoding of the PHC record, then password verification, key
derivation and AEAD decryption in that order.  Returns the result together
with the trace of cryptographic operations performed. -/
def PasswordMethod.unwrap_master_key_bytes (C : PwCrypto) (password : String)
    (wrapped : Bytes) : Except String Bytes × List CryptoOp :=
  if wrapped.length < 4 then
    (.error "Invalid wrapped key: too short", [])
  else
    let phc_len := u32_from_le_bytes (wrapped.take 4)
    if wrapped.length < 4 + phc_len then
      (.error "Invalid wrapped key: truncated phc hash", [])
    else
      match bytesToString ((wrapped.drop 4).take phc_len) with
      | .error _ => (.error "Invalid wrapped key: non-UTF8 phc hash", [])
      | .ok phc_hash =>
        let encrypted_master := (wrapped.drop 4).drop phc_len
        match C.verify_password password phc_hash with
        | .error _ => (.error "Incorrect password", [.argon2Verify])
        | .ok _ =>
          match C.derive_key_from_phc_hash phc_hash with
          | .error e => (.error e, [.argon2Verify, .deriveKey])
          | .ok wrapping_key_bytes =>
            match cipher.Key.from_slice wrapping_key_bytes with
            | none =>
              (.error "Invalid wrapping key size", [.argon2Verify, .deriveKey])
            | some wrap_key =>
              match C.decrypt wrap_key.data encrypted_master with
              | .error _ =>
                (.error "Incorrect password",
                 [.argon2Verify, .deriveKey, .aeadDecrypt])
              | .ok master_key =>
                (.ok master_key, [.argon2Verify, .deriveKey, .aeadDecrypt])

/-- Byte-level `PrivateKeyMethod::unwrap_master_key` (`auth/keypair.rs`
lines 63-94): rejects blobs shorter than 60 bytes (`eph_pub(32) +
nonce(12) + tag(16)`), then performs the Diffie-Hellman exchange, the HKDF
expansion and the AEAD decryption in that order, recording each. -/
def PrivateKeyMethod.unwrap_master_key_bytes (C : KpCrypto)
    (private_key : Bytes) (wrapped : Bytes) :
    Except String Bytes × List CryptoOp :=
  if wrapped.length < 60 then
    (.error "Invalid wrapped key: too short", [])
  else
    let eph_pub := wrapped.take 32
    let shared_secret := C.dh private_key eph_pub
    match C.hkdf_expand eph_pub shared_secret with
    | .error e => (.error ("HKDF expand failed: " ++ e), [.dhExchange, .hkdfExpand])
    | .ok wrapping_key =>
      match cipher.Key.from_slice wrapping_key with
      | none => (.error "Invalid wrapping key size", [.dhExchange, .hkdfExpand])
      | some wrap_key =>
        match C.decrypt wrap_key.data (wrapped.drop 32) with
        | .error _ =>
          (.error "Failed to decrypt master key: wrong private key or corrupted data",
           [.dhExchange, .hkdfExpand, .aeadDecrypt])
        | .ok master_key =>
          (.ok master_key, [.dhExchange, .hkdfExpand, .aeadDecrypt])

/-!
Relational state.  A `DbState` is the contents of the SQLite file:
the `schema_version` table (a single optional row), the legacy `metadata`
table, the `entries` table, the optional `entries_fts` table (`none` when
the table does not exist, as in a freshly created v4 schema or after the
v3→v4 migration dropped it), and the `auth_slots` table kept in ascending
`id` order (ids are assigned by `AUTOINCREMENT`).  The `writes` counter
instruments the embedding: every executed SQL statement that mutates data
increments it, so that statement-count properties can be stated.
-/

/-- A stored `auth_slots.wrapped_key` blob, tagged by the method that
produced it (the source stores opaque bytes; `slot_type` tells callers how
to parse them). -/
inductive WrappedBlob
| pass (blob : PwWrappedKey)
| keyp (blob : KpWrappedKey)
deriving DecidableEq, Repr

/-- A row of the `auth_slots` table (`create_schema` in `db/schema.rs`). -/
structure AuthSlot where
  id : Int
  slot_type : String
  label : String
  public_key : Option Bytes
  wrapped_key : WrappedBlob
  created_at : String
  last_used : Option String
deriving DecidableEq, Repr

/-- A row of the `entries` table: date (the primary key of the DDL),
both encrypted fields, word count and timestamps. -/
structure Entry where
  date : String
  title_encrypted : cipher.AeadCt
  text_encrypted : cipher.AeadCt
  word_count : Int
  date_created : String
  date_updated : String
deriving DecidableEq, Repr

/-- A value of the legacy `metadata` table: either plain text or a stored
PHC record (the source stores the PHC record as text; the embedding tags
it so it can be consumed symbolically). -/
inductive MetaVal
| str (s : String)
| phc (h : pwd.PhcHash)
deriving DecidableEq, Repr

/-- The contents of the vault file. -/
structure DbState where
  schema_version : Option Int
  metadata : List (String × MetaVal)
  entries : List Entry
  entries_fts : Option (List (String × String × String))
  auth_slots : List AuthSlot
  next_slot_id : Int
  writes : Nat
deriving DecidableEq, Repr

/-- Source `DatabaseConnection` (`db/schema.rs`): the open connection together
with the recovered master key for the session. -/
structure DatabaseConnection where
  conn : DbState
  encryption_key : cipher.Key
deriving DecidableEq, Repr

/-- Source `DatabaseConnection::key`. -/
def DatabaseConnection.key (db : DatabaseConnection) : cipher.Key :=
  db.encryption_key

/-- Parsing a slot's raw `wrapped_key` bytes with
`PasswordMethod::unwrap_master_key`: a blob produced by the keypair method
does not carry the `[phc_len][phc_record]` framing and fails to parse. -/
def PasswordMethod.unwrap_blob (password : String) (blob : WrappedBlob) :
    Except String Bytes :=
  match blob with
  | .pass b => PasswordMethod.unwrap_master_key password b
  | .keyp _ => .error "Invalid wrapped key: non-UTF8 phc hash"

namespace queries

/-- Source `DiaryEntry` (`db/queries.rs`): the decrypted record. -/
structure DiaryEntry where
  date : String
  title : String
  text : String
  word_count : Int
  date_created : String
  date_updated : String
deriving DecidableEq, Repr

/-- Source `update_fts_index` (`db/queries.rs` lines 203-241): upserts the
decrypted text into `entries_fts`; errors when the table does not exist
(the v4 schema does not create it). -/
def update_fts_index (s : DbState) (date title text : String) :
    Except String Unit × DbState :=
  match s.entries_fts with
  | none =>
    (.error "Failed to check FTS existence: no such table: entries_fts", s)
  | some fts =>
    if fts.any (fun r => r.1 = date) then
      (.ok (), { s with
        entries_fts :=
          some (fts.map (fun r => if r.1 = date then (date, title, text) else r)),
        writes := s.writes + 1 })
    else
      (.ok (), { s with
        entries_fts := some (fts ++ [(date, title, text)]),
        writes := s.writes + 1 })

/-- Source `insert_entry` (`db/queries.rs` lines 21-49): encrypts title and text
under the session key with fresh nonces, inserts the row (the `date`
column is the DDL's primary key, so a duplicate date fails the insert),
then updates the FTS index with the decrypted data.  The insert is not
transactional: an FTS failure leaves the inserted row in place. -/
def insert_entry (db : DatabaseConnection) (entry : DiaryEntry)
    (nonce1 nonce2 : Nat) : Except String Unit × DatabaseConnection :=
  let title_encrypted := cipher.encrypt db.encryption_key nonce1 (strBytes entry.title)
  let text_encrypted := cipher.encrypt db.encryption_key nonce2 (strBytes entry.text)
  if db.conn.entries.any (fun e => e.date = entry.date) then
    (.error "Failed to insert entry: UNIQUE constraint failed: entries.date", db)
  else
    let s1 := { db.conn with
      entries := db.conn.entries ++
        [⟨entry.date, title_encrypted, text_encrypted, entry.word_count,
          entry.date_created, entry.date_updated⟩],
      writes := db.conn.writes + 1 }
    match update_fts_index s1 entry.date entry.title entry.text with
    | (.error e, s2) => (.error e, { db with conn := s2 })
    | (.ok _, s2) => (.ok (), { db with conn := s2 })

/-- Source `get_entry` (`db/queries.rs` lines 59-110): fetches the row for a
date, decrypts both fields with the session key and decodes them as
UTF-8. -/
def get_entry (db : DatabaseConnection) (date : String) :
    Except String (Option DiaryEntry) :=
  match db.conn.entries.find? (fun e => e.date = date) with
  | none => .ok none
  | some e =>
    match cipher.decrypt db.encryption_key e.title_encrypted with
    | .error err => .error ("Failed to decrypt title: " ++ err)
    | .ok title_bytes =>
      match cipher.decrypt db.encryption_key e.text_encrypted with
      | .error err => .error ("Failed to decrypt text: " ++ err)
      | .ok text_bytes =>
        match bytesToString title_bytes with
        | .error err => .error ("Invalid UTF-8 in title: " ++ err)
        | .ok title =>
          match bytesToString text_bytes with
          | .error err => .error ("Invalid UTF-8 in text: " ++ err)
          | .ok text =>
            .ok (some ⟨e.date, title, text, e.word_count,
                       e.date_created, e.date_updated⟩)

/-- Source `get_password_slot` (`db/queries.rs` lines 251-262): the first
password-type slot in ascending id order (the slot list is kept in id
order, so `find?` is `ORDER BY id ASC LIMIT 1`). -/
def get_password_slot (db : DatabaseConnection) :
    Except String (Option (Int × WrappedBlob)) :=
  match db.conn.auth_slots.find? (fun s => s.slot_type = "password") with
  | none => .ok none
  | some s => .ok (some (s.id, s.wrapped_key))

/-- Source `update_auth_slot_wrapped_key` (`db/queries.rs` lines 265-277): one
UPDATE statement replacing the `wrapped_key` of the slot with the given
id. -/
def update_auth_slot_wrapped_key (db : DatabaseConnection) (slot_id : Int)
    (wrapped_key : WrappedBlob) : Except String Unit × DatabaseConnection :=
  (.ok (), { db with conn := { db.conn with
    auth_slots := db.conn.auth_slots.map
      (fun s => if s.id = slot_id then { s with wrapped_key := wrapped_key } else s),
    writes := db.conn.writes + 1 } })

/-- Source `insert_auth_slot` (`db/queries.rs` lines 280-295): inserts a slot row
(id assigned by `AUTOINCREMENT`) and returns the new row id. -/
def insert_auth_slot (db : DatabaseConnection) (slot_type label : String)
    (public_key : Option Bytes) (wrapped_key : WrappedBlob)
    (created_at : String) : Except String Int × DatabaseConnection :=
  let id := db.conn.next_slot_id
  (.ok id, { db with conn := { db.conn with
    auth_slots := db.conn.auth_slots ++
      [⟨id, slot_type, label, public_key, wrapped_key, created_at, none⟩],
    next_slot_id := id + 1,
    writes := db.conn.writes + 1 } })

/-- Source `delete_auth_slot` (`db/queries.rs` lines 328-333). -/
def delete_auth_slot (db : DatabaseConnection) (slot_id : Int) :
    Except String Unit × DatabaseConnection :=
  (.ok (), { db with conn := { db.conn with
    auth_slots := db.conn.auth_slots.filter (fun s => ¬ s.id = slot_id),
    writes := db.conn.writes + 1 } })

/-- Source `count_auth_slots` (`db/queries.rs` lines 336-340). -/
def count_auth_slots (db : DatabaseConnection) : Except String Int :=
  .ok (db.conn.auth_slots.length : Int)

/-- Source `update_slot_last_used` (`db/queries.rs` lines 343-352). -/
def update_slot_last_used (db : DatabaseConnection) (slot_id : Int)
    (now : String) : Except String Unit × DatabaseConnection :=
  (.ok (), { db with conn := { db.conn with
    auth_slots := db.conn.auth_slots.map
      (fun s => if s.id = slot_id then { s with last_used := some now } else s),
    writes := db.conn.writes + 1 } })

end queries

/-- Source `SCHEMA_VERSION` (`db/schema.rs` line 28). -/
def SCHEMA_VERSION : Int := 4

/-- A freshly opened (empty) database file. -/
def emptyDbState : DbState :=
  { schema_version := none, metadata := [], entries := [],
    entries_fts := none, auth_slots := [], next_slot_id := 1, writes := 0 }

/-- Source `create_schema` (`db/schema.rs` lines 251-299): creates the
`schema_version`, `metadata`, `entries` (with `date TEXT PRIMARY KEY`) and
`auth_slots` tables — the search index is not created ("Search index: not
implemented") — and sets the schema version to `SCHEMA_VERSION`. -/
def create_schema (s : DbState) : DbState :=
  { s with schema_version := some SCHEMA_VERSION, writes := s.writes + 2 }

/-- Source `create_database` (`db/schema.rs` lines 34-71): generates a random
master key (`master_key_seed` is the explicit `OsRng` draw, expanded to 32
bytes), creates the v4 schema, wraps the master key with the password and
inserts the password slot. -/
def create_database (password : String) (master_key_seed salt nonce : Nat)
    (now : String) : Except String DatabaseConnection :=
  let master_key_bytes : Bytes := List.replicate 32 master_key_seed
  match cipher.Key.from_slice master_key_bytes with
  | none => .error "Invalid master key size"
  | some encryption_key =>
    let s0 := create_schema emptyDbState
    match PasswordMethod.wrap_master_key password salt nonce master_key_bytes with
    | .error e => .error ("Failed to wrap master key: " ++ e)
    | .ok wrapped_key =>
      let s1 := { s0 with
        auth_slots := s0.auth_slots ++
          [⟨s0.next_slot_id, "password", "Password", none, .pass wrapped_key, now, none⟩],
        next_slot_id := s0.next_slot_id + 1,
        writes := s0.writes + 1 }
      .ok ⟨s1, encryption_key⟩

/-- Source `open_v3_with_password` (`db/schema.rs` lines 206-248): finds the
first password slot, unwraps the master key from it ("Incorrect password"
on failure), and updates the slot's `last_used` timestamp. -/
def open_v3_with_password (conn : DbState) (password : String)
    (now : String) : Except String DatabaseConnection :=
  match conn.auth_slots.find? (fun s => s.slot_type = "password") with
  | none => .error "No password auth slot found"
  | some slot =>
    match PasswordMethod.unwrap_blob password slot.wrapped_key with
    | .error _ => .error "Incorrect password"
    | .ok master_key_bytes =>
      match cipher.Key.from_slice master_key_bytes with
      | none => .error "Invalid master key size"
      | some encryption_key =>
        let conn2 := { conn with
          auth_slots := conn.auth_slots.map
            (fun s => if s.id = slot.id then { s with last_used := some now } else s),
          writes := conn.writes + 1 }
        .ok ⟨conn2, encryption_key⟩

/-- Source `get_metadata` (`db/schema.rs` lines 302-318): the legacy password
hash and salt rows of the `metadata` table. -/
def get_metadata (conn : DbState) : Except String (pwd.PhcHash × String) :=
  match conn.metadata.find? (fun kv => kv.1 = "password_hash") with
  | some (_, .phc h) =>
    match conn.metadata.find? (fun kv => kv.1 = "salt") with
    | some (_, .str s) => .ok (h, s)
    | _ => .error "Failed to retrieve salt: not found"
  | _ => .error "Failed to retrieve password hash: not found"

/-- Source `derive_key_from_hash` (`db/schema.rs` lines 322-324). -/
def derive_key_from_hash (password_hash : pwd.PhcHash) : Except String Bytes :=
  .ok (pwd.derive_key_from_phc_hash password_hash)

/-- Events recorded by a migration step: writing the pre-migration backup
file, and executing a mutating SQL statement against the vault. -/
inductive Ev
| backupWrite
| dbWrite
deriving DecidableEq, Repr

/-- The error message `migrate_v1_to_v2` builds when its transform fails
(`db/schema.rs` lines 377-396): the message depends on the outcome of the
attempted `ROLLBACK`, and the two outcomes produce different texts. -/
def migrateV1V2FailureMessage (backup_path e : String)
    (rollback : Except String Unit) : String :=
  match rollback with
  | .ok _ =>
    "Migration v1→v2 failed (database unchanged, backup at " ++ backup_path ++
    "): " ++ e ++
    "\n\nRECOVERY: Your database is intact. The migration will retry next time you open the app.\nBackup available at: " ++
    backup_path
  | .error rollback_err =>
    "CRITICAL: Migration v1→v2 failed AND rollback failed.\nOriginal error: " ++
    e ++ "\nRollback error: " ++ rollback_err ++
    "\nRESTORE from backup: " ++ backup_path

/-- The error message `migrate_v2_to_v3` builds when its transform fails
(`db/schema.rs` lines 448-458): the source discards the rollback result
(`let _ = db.conn.execute_batch("ROLLBACK")`) and formats one message that
does not depend on it. -/
def migrateV2V3FailureMessage (backup_path e : String)
    (rollback : Except String Unit) : String :=
  match rollback with
  | _ =>
    "Migration v2→v3 failed (backup at " ++ backup_path ++ "): " ++ e ++
    "\n\nRECOVERY: Restore from backup at: " ++ backup_path

/-- Source `migrate_v1_to_v2` (`db/schema.rs` lines 331-399): backup first, then
inside one transaction drop the v1 FTS artifacts and set the schema
version to 2.  `backupOk` stands for the success of the pre-migration
file copy; when it is false the step aborts before any mutation.  The
transaction is modelled by staging the mutations and discarding them on
rollback, so the transform of this step (pure DDL) always succeeds. -/
def migrate_v1_to_v2 (db : DatabaseConnection) (backupOk : Bool)
    (backup_path : String) : Except String Unit × DatabaseConnection × List Ev :=
  if backupOk = false then
    (.error "Failed to create pre-migration backup: copy failed", db, [])
  else
    let staged := db.conn
    let migration_result : Except String DbState :=
      let s1 := { staged with entries_fts := none, writes := staged.writes + 1 }
      let s2 := { s1 with schema_version := none, writes := s1.writes + 1 }
      let s3 := { s2 with schema_version := some 2, writes := s2.writes + 1 }
      .ok s3
    match migration_result with
    | .ok s3 =>
      (.ok (), { db with conn := s3 },
       [.backupWrite, .dbWrite, .dbWrite, .dbWrite])
    | .error e =>
      (.error (migrateV1V2FailureMessage backup_path e (.ok ())), db,
       [.backupWrite])

/-- Nonce drawn for the re-encryption of one field of one entry during the
v2→v3 migration (`side` 0 for the title, 1 for the text). -/
def reencrypt_nonce (rng : Nat) (date : String) (side : Nat) : Nat :=
  Nat.pair rng (Nat.pair (strEncode date) side)

/-- The per-entry loop of `migrate_v2_to_v3_inner` (`db/schema.rs` lines
500-530): for each date, read the entry, decrypt both fields with the old
password-derived key, re-encrypt them with the new master key and write
the row back.  The first failing decrypt aborts the loop. -/
def migrate_v2_to_v3_loop (old_key master_key : cipher.Key) (rng : Nat) :
    List String → DbState → Except String DbState
  | [], s => .ok s
  | date :: rest, s =>
    match s.entries.find? (fun e => e.date = date) with
    | none => .error ("Failed to read entry " ++ date ++ ": not found")
    | some e =>
      match cipher.decrypt old_key e.title_encrypted with
      | .error err => .error ("Failed to decrypt title for " ++ date ++ ": " ++ err)
      | .ok title_plain =>
        match cipher.decrypt old_key e.text_encrypted with
        | .error err => .error ("Failed to decrypt text for " ++ date ++ ": " ++ err)
        | .ok text_plain =>
          let new_title_enc :=
            cipher.encrypt master_key (reencrypt_nonce rng date 0) title_plain
          let new_text_enc :=
            cipher.encrypt master_key (reencrypt_nonce rng date 1) text_plain
          let s2 := { s with
            entries := s.entries.map (fun e2 =>
              if e2.date = date then
                { e2 with title_encrypted := new_title_enc,
                          text_encrypted := new_text_enc }
              else e2),
            writes := s.writes + 1 }
          migrate_v2_to_v3_loop old_key master_key rng rest s2

/-- Source `migrate_v2_to_v3_inner` (`db/schema.rs` lines 463-552): creates the
`auth_slots` table, re-encrypts every entry with the fresh master key in
ascending date order, wraps the master key with the password, inserts the
password slot, and sets the schema version to 3 — all inside the caller's
transaction. -/
def migrate_v2_to_v3_inner (db_conn : DbState) (old_key : cipher.Key)
    (master_key_bytes : Bytes) (password : String) (salt nonce rng : Nat)
    (now : String) : Except String DbState :=
  let s0 := { db_conn with writes := db_conn.writes + 1 }
  let dates :=
    List.mergeSort (s0.entries.map (fun e => e.date)) (fun a b => decide (a ≤ b))
  match cipher.Key.from_slice master_key_bytes with
  | none => .error "Invalid master key size"
  | some master_key =>
    match migrate_v2_to_v3_loop old_key master_key rng dates s0 with
    | .error e => .error e
    | .ok s1 =>
      match PasswordMethod.wrap_master_key password salt nonce master_key_bytes with
      | .error e => .error ("Failed to wrap master key: " ++ e)
      | .ok wrapped_key =>
        let s2 := { s1 with
          auth_slots := s1.auth_slots ++
            [AuthSlot.mk s1.next_slot_id "password" "Password" none
              (.pass wrapped_key) now none],
          next_slot_id := s1.next_slot_id + 1,
          writes := s1.writes + 1 }
        let s3 := { s2 with schema_version := none, writes := s2.writes + 1 }
        .ok { s3 with schema_version := some 3, writes := s3.writes + 1 }

/-- Source `migrate_v2_to_v3` (`db/schema.rs` lines 410-460): backup, fresh
master key (`master_key_seed` is the explicit `OsRng` draw), transaction
around `migrate_v2_to_v3_inner`, then commit (installing the new master
key in the connection) or rollback (the transaction is discarded; the
source ignores the rollback result).  Returns the step's outcome, the
resulting on-disk state, and the event trace. -/
def migrate_v2_to_v3 (db : DatabaseConnection) (backupOk : Bool)
    (backup_path : String) (master_key_seed salt nonce rng : Nat)
    (password : String) (now : String) :
    Except String DatabaseConnection × DbState × List Ev :=
  if backupOk = false then
    (.error "Failed to create pre-migration backup: copy failed", db.conn, [])
  else
    let master_key_bytes : Bytes := List.replicate 32 master_key_seed
    match migrate_v2_to_v3_inner db.conn db.encryption_key master_key_bytes
        password salt nonce rng now with
    | .ok s3 =>
      match cipher.Key.from_slice master_key_bytes with
      | none => (.error "Invalid master key size", s3, [.backupWrite])
      | some new_key =>
        (.ok ⟨s3, new_key⟩, s3,
         .backupWrite :: List.replicate (s3.writes - db.conn.writes) .dbWrite)
    | .error e =>
      (.error (migrateV2V3FailureMessage backup_path e (.ok ())), db.conn,
       [.backupWrite])

/-- Source `migrate_v3_to_v4` (`db/schema.rs` lines 561-577): if the stored
version is below 4, drop the plaintext `entries_fts` table and set the
version to 4.  The source performs no backup and opens no transaction for
this step. -/
def migrate_v3_to_v4 (db : DatabaseConnection) :
    Except String Unit × DatabaseConnection × List Ev :=
  let version := db.conn.schema_version.getD 3
  if version < 4 then
    let s1 := { db.conn with entries_fts := none, writes := db.conn.writes + 1 }
    let s2 := { s1 with schema_version := some 4, writes := s1.writes + 1 }
    (.ok (), { db with conn := s2 }, [.dbWrite, .dbWrite])
  else
    (.ok (), db, [])

/-- Source `open_database` (`db/schema.rs` lines 80-126): reads the stored
generation (default 1), takes the v3+ path (unlock via `auth_slots`, then
`migrate_v3_to_v4`) or the legacy path (verify the password against the
`metadata` hash, derive the legacy key, run the pending migrations in
order).  Returns the session outcome, the final on-disk state and the
accumulated event trace. -/
def open_database (file : DbState) (password : String) (backupOk : Bool)
    (backup_path : String) (master_key_seed salt nonce rng : Nat)
    (now : String) :
    Except String DatabaseConnection × DbState × List Ev :=
  let current_version := file.schema_version.getD 1
  if current_version ≥ 3 then
    match open_v3_with_password file password now with
    | .error e => (.error e, file, [])
    | .ok db =>
      match migrate_v3_to_v4 db with
      | (.error e, db2, tr) => (.error e, db2.conn, tr)
      | (.ok _, db2, tr) => (.ok db2, db2.conn, tr)
  else
    match get_metadata file with
    | .error e => (.error e, file, [])
    | .ok (stored_hash, _salt) =>
      match pwd.verify_password password stored_hash with
      | .error _ => (.error "Incorrect password", file, [])
      | .ok _ =>
        match derive_key_from_hash stored_hash with
        | .error e => (.error e, file, [])
        | .ok old_key_bytes =>
          match cipher.Key.from_slice old_key_bytes with
          | none => (.error "Invalid key size", file, [])
          | some old_key =>
            let db_conn : DatabaseConnection := ⟨file, old_key⟩
            let step1 :=
              if current_version < 2 then
                migrate_v1_to_v2 db_conn backupOk backup_path
              else (.ok (), db_conn, [])
            match step1 with
            | (.error e, db1, tr1) => (.error e, db1.conn, tr1)
            | (.ok _, db1, tr1) =>
              match migrate_v2_to_v3 db1 backupOk backup_path master_key_seed
                  salt nonce rng password now with
              | (.error e, s2, tr2) => (.error e, s2, tr1 ++ tr2)
              | (.ok db2, _, tr2) =>
                match migrate_v3_to_v4 db2 with
                | (.error e, db3, tr3) => (.error e, db3.conn, tr1 ++ tr2 ++ tr3)
                | (.ok _, db3, tr3) => (.ok db3, db3.conn, tr1 ++ tr2 ++ tr3)

/-- Source `change_password` (`commands/auth/auth_core.rs` lines 191-227): finds
the password slot, unwraps the master key with the old password
("Incorrect current password" on failure), re-wraps it with the new
password (fresh salt and nonce) and updates the slot in place — no entry
is touched. -/
def change_password (db : DatabaseConnection) (old_password new_password : String)
    (salt nonce : Nat) : Except String Unit × DatabaseConnection :=
  match queries.get_password_slot db with
  | .error e => (.error e, db)
  | .ok none => (.error "No password auth method found", db)
  | .ok (some (slot_id, wrapped_key)) =>
    match PasswordMethod.unwrap_blob old_password wrapped_key with
    | .error _ => (.error "Incorrect current password", db)
    | .ok master_key_bytes =>
      match PasswordMethod.wrap_master_key new_password salt nonce master_key_bytes with
      | .error e => (.error ("Failed to re-wrap master key: " ++ e), db)
      | .ok new_wrapped_key =>
        queries.update_auth_slot_wrapped_key db slot_id (.pass new_wrapped_key)

/-- Source `register_password` (`commands/auth/auth_methods.rs` lines 84-113):
rejects passwords shorter than 8 bytes (`String::len` counts UTF-8 bytes),
rejects a second password slot, otherwise wraps the session master key
with the new password and inserts the slot. -/
def register_password (db : DatabaseConnection) (new_password : String)
    (salt nonce : Nat) (now : String) : Except String Unit × DatabaseConnection :=
  if new_password.utf8ByteSize < 8 then
    (.error "Password must be at least 8 characters", db)
  else
    match queries.get_password_slot db with
    | .error e => (.error e, db)
    | .ok (some _) =>
      (.error "A password method already exists. Use \'Change Password\' to update it.", db)
    | .ok none =>
      match PasswordMethod.wrap_master_key new_password salt nonce
          db.encryption_key.data with
      | .error e => (.error ("Failed to wrap master key: " ++ e), db)
      | .ok wrapped_key =>
        match queries.insert_auth_slot db "password" "Password" none
            (.pass wrapped_key) now with
        | (_, db2) => (.ok (), db2)

/-- Source `remove_auth_method` (`commands/auth/auth_methods.rs` lines 191-222):
verifies the caller's identity by unwrapping the password slot, then
refuses to delete when at most one slot exists — before any mutation —
and otherwise deletes the requested slot. -/
def remove_auth_method (db : DatabaseConnection) (slot_id : Int)
    (current_password : String) : Except String Unit × DatabaseConnection :=
  match queries.get_password_slot db with
  | .error e => (.error e, db)
  | .ok none => (.error "No password auth method found", db)
  | .ok (some (_, wrapped_key)) =>
    match PasswordMethod.unwrap_blob current_password wrapped_key with
    | .error _ => (.error "Incorrect password", db)
    | .ok _ =>
      match queries.count_auth_slots db with
      | .error e => (.error e, db)
      | .ok count =>
        if count ≤ 1 then
          (.error "Cannot remove the last authentication method. Add another method first.", db)
        else
          queries.delete_auth_slot db slot_id

/-- Holds of a migration trace when no database mutation happens before a
backup has been written: scanning left to right, a `dbWrite` seen before
the first `backupWrite` refutes it. -/
def backupBeforeWrites : List Ev → Bool
  | [] => true
  | .backupWrite :: _ => true
  | .dbWrite :: _ => false

/-- Whether decrypting `ct` under `key` fails (used to speak about
corrupted or foreign-key records). -/
def decrypt_fails (key : cipher.Key) (ct : cipher.AeadCt) : Bool :=
  match cipher.decrypt key ct with
  | .ok _ => false
  | .error _ => true

/-- A fixed 32-byte key used by the concrete witness states. -/
def defaultKey : cipher.Key := ⟨List.replicate 32 0⟩

/-- Extracts the connection from an `Except`, with an inert fallback
(used only to name concrete witness states; the fallback is never hit). -/
def orDefault (x : Except String DatabaseConnection) : DatabaseConnection :=
  match x with
  | .ok db => db
  | .error _ => ⟨emptyDbState, defaultKey⟩

/-- Concrete session used by witnesses: a vault freshly created with the
password "oldpw123" (master key seed 0, salt 1, nonce 2). -/
def exDb0 : DatabaseConnection :=
  orDefault (create_database "oldpw123" 0 1 2 "t0")

/-- The master key bytes of `exDb0`. -/
def exMk : Bytes := List.replicate 32 0

/-- The password-slot blob of `exDb0`. -/
def exBlob : PwWrappedKey :=
  ⟨pwd.hash_password "oldpw123" 1,
   cipher.encrypt ⟨pwd.derive_key_from_phc_hash (pwd.hash_password "oldpw123" 1)⟩ 2 exMk⟩

/-- A first entry for 2024-02-01. -/
def exEntry : queries.DiaryEntry :=
  ⟨"2024-02-01", "Morning", "First content", 2, "t1", "t1"⟩

/-- A second, distinct entry carrying the same date. -/
def exEntry2 : queries.DiaryEntry :=
  ⟨"2024-02-01", "Evening", "Second content", 2, "t2", "t2"⟩

/-- Source `exDb0` after inserting `exEntry` (the row is stored even though
`insert_entry` reports the missing-FTS-table error afterwards). -/
def exDb1 : DatabaseConnection := (queries.insert_entry exDb0 exEntry 3 4).2

/-- A concrete unlocked session whose only auth slot is a keypair slot
(no password slot), as left behind by registering a keypair and removing
the password slot. -/
def c10State : DatabaseConnection :=
  ⟨{ schema_version := some 4, metadata := [], entries := [],
     entries_fts := none,
     auth_slots := [⟨1, "keypair", "My Key", some (List.replicate 32 7),
       .keyp ⟨5, cipher.encrypt defaultKey 9 (List.replicate 32 0)⟩, "t0", none⟩],
     next_slot_id := 2, writes := 0 }, defaultKey⟩

/-- A concrete generation-3 vault (non-empty plaintext FTS table still
present) about to undergo the v3→v4 step. -/
def c3V3Db : DatabaseConnection :=
  ⟨{ schema_version := some 3, metadata := [], entries := [],
     entries_fts := some [("2024-01-01", "t", "x")],
     auth_slots := [⟨1, "password", "Password", none, .pass exBlob, "t0", none⟩],
     next_slot_id := 2, writes := 0 }, defaultKey⟩

/-- A concrete generation-2 vault holding one entry encrypted under the
session key and one corrupted entry encrypted under a different key. -/
def c2BadDb : DatabaseConnection :=
  ⟨{ schema_version := some 2, metadata := [], entries :=
       [⟨"2024-01-01", cipher.encrypt defaultKey 1 (strBytes "Valid"),
         cipher.encrypt defaultKey 2 (strBytes "fine"), 1, "t", "t"⟩,
        ⟨"2024-01-02", cipher.encrypt ⟨List.replicate 32 9⟩ 3 (strBytes "Corrupted"),
         cipher.encrypt ⟨List.replicate 32 9⟩ 4 (strBytes "bad"), 1, "t", "t"⟩],
     entries_fts := some [], auth_slots := [], next_slot_id := 1, writes := 0 },
   defaultKey⟩

/-- The derived wrapping key always has the statutory 32 bytes, so
`Key::from_slice` accepts it. -/
theorem from_slice_derive (h : pwd.PhcHash) :
    cipher.Key.from_slice (pwd.derive_key_from_phc_hash h) =
      some ⟨pwd.derive_key_from_phc_hash h⟩ := by
  simp [cipher.Key.from_slice, pwd.derive_key_from_phc_hash, cipher.KEY_SIZE]

/-- The HKDF output always has the statutory 32 bytes. -/
theorem from_slice_hkdf (salt ikm : Nat) :
    cipher.Key.from_slice (hkdfSha256 salt ikm) =
      some ⟨hkdfSha256 salt ikm⟩ := by
  simp [cipher.Key.from_slice, hkdfSha256, cipher.KEY_SIZE]

/-- A 32-byte replicated seed always passes `Key::from_slice`. -/
theorem from_slice_replicate (x : Nat) :
    cipher.Key.from_slice (List.replicate 32 x) = some ⟨List.replicate 32 x⟩ := by
  simp [cipher.Key.from_slice, cipher.KEY_SIZE]

/-- Source `PasswordMethod::wrap_master_key` always succeeds, with the blob made
of the fresh PHC record and the AEAD encryption under the derived key. -/
theorem wrap_master_key_ok (p : String) (salt nonce : Nat) (mk : Bytes) :
    PasswordMethod.wrap_master_key p salt nonce mk =
      .ok ⟨pwd.hash_password p salt,
           cipher.encrypt ⟨pwd.derive_key_from_phc_hash (pwd.hash_password p salt)⟩
             nonce mk⟩ := by
  simp [PasswordMethod.wrap_master_key, from_slice_derive]

/-- Unwrapping a freshly wrapped blob with the same password recovers the
master key. -/
theorem unwrap_wrap (p : String) (salt nonce : Nat) (mk : Bytes) :
    PasswordMethod.unwrap_master_key p
      ⟨pwd.hash_password p salt,
       cipher.encrypt ⟨pwd.derive_key_from_phc_hash (pwd.hash_password p salt)⟩
         nonce mk⟩ = .ok mk := by
  simp [PasswordMethod.unwrap_master_key, pwd.verify_password, pwd.hash_password,
    from_slice_derive, cipher.decrypt, cipher.encrypt]

/-- Decoding the byte encoding of a string recovers the string. -/
theorem bytesToString_strBytes (s : String) :
    bytesToString (strBytes s) = .ok s := by
  unfold bytesToString strBytes
  rw [if_pos]
  · rw [List.map_map]
    have hmap : s.data.map (Char.ofNat ∘ Char.toNat) = s.data := by
      apply List.map_congr_left ?_ |>.trans (List.map_id _)
      intro c _
      exact Char.ofNat_toNat c
    rw [hmap]
  · simp only [List.all_eq_true, List.mem_map, decide_eq_true_eq]
    rintro n ⟨c, _, rfl⟩
    exact c.valid

/-- C5: Wrap/unwrap round-trip — for every 32-byte master key `K` and
every password `p`, unwrapping the blob produced by
`PasswordMethod::wrap_master_key` with the same password returns exactly
`K`; and for every X25519 keypair `(sk, pubOf sk)`, unwrapping with the
private key the blob wrapped for the public key returns exactly `K`
(whatever fresh salt, nonces and ephemeral secret were drawn). -/
theorem c5_wrap_unwrap_roundtrip (K : Bytes) (p : String)
    (salt nonce sk eph nonce2 : Nat) (hK : K.length = 32) :
    (PasswordMethod.wrap_master_key p salt nonce K).bind
        (PasswordMethod.unwrap_master_key p) = .ok K ∧
    (KeypairMethod.wrap_master_key (x25519.pubOf sk) eph nonce2 K).bind
        (PrivateKeyMethod.unwrap_master_key sk) = .ok K := by
  constructor
  · simp [PasswordMethod.wrap_master_key, PasswordMethod.unwrap_master_key,
      from_slice_derive, pwd.verify_password, pwd.hash_password,
      cipher.encrypt, cipher.decrypt, Except.bind]
  · simp [KeypairMethod.wrap_master_key, PrivateKeyMethod.unwrap_master_key,
      from_slice_hkdf, x25519.dh, x25519.pubOf, Except.bind,
      cipher.encrypt, cipher.decrypt, Nat.mul_comm sk eph]

/-- C5 witness: the round-trip evaluated at a concrete 32-byte key,
password, salt, nonces and keypair. -/
theorem c5_wrap_unwrap_roundtrip_witness :
    (List.range 32).length = 32 ∧
    ((PasswordMethod.wrap_master_key "p1" 1 2 (List.range 32)).bind
        (PasswordMethod.unwrap_master_key "p1") = .ok (List.range 32) ∧
     (KeypairMethod.wrap_master_key (x25519.pubOf 3) 4 5 (List.range 32)).bind
        (PrivateKeyMethod.unwrap_master_key 3) = .ok (List.range 32)) :=
  ⟨by decide, c5_wrap_unwrap_roundtrip (List.range 32) "p1" 1 2 3 4 5 (by decide)⟩

/-- C9: Minimum-length rejection — any blob shorter than 4 bytes makes
`PasswordMethod::unwrap_master_key` return the format error
"Invalid wrapped key: too short" with an empty trace of cryptographic
operations (no Argon2 hashing, no key derivation, no AEAD call), and any
blob shorter than 60 bytes makes `PrivateKeyMethod::unwrap_master_key`
return the same format error with an empty trace (no Diffie-Hellman, no
HKDF, no AEAD call), whatever the external primitives compute. -/
theorem c9_minimum_length_rejection (Cpw : PwCrypto) (Ckp : KpCrypto)
    (password : String) (private_key w1 w2 : Bytes)
    (h1 : w1.length < 4) (h2 : w2.length < 60) :
    PasswordMethod.unwrap_master_key_bytes Cpw password w1 =
      (.error "Invalid wrapped key: too short", []) ∧
    PrivateKeyMethod.unwrap_master_key_bytes Ckp private_key w2 =
      (.error "Invalid wrapped key: too short", []) := by
  constructor
  · simp [PasswordMethod.unwrap_master_key_bytes, h1]
  · simp [PrivateKeyMethod.unwrap_master_key_bytes, h2]

/-- C9 witness: concrete short blobs (3 bytes and 59 bytes) with a
concrete choice of external primitives. -/
theorem c9_minimum_length_rejection_witness :
    ([0, 0, 0] : Bytes).length < 4 ∧
    (List.replicate 59 0 : Bytes).length < 60 ∧
    (PasswordMethod.unwrap_master_key_bytes
        ⟨fun _ _ => .ok (), fun _ => .ok [], fun _ _ => .ok []⟩ "pw" [0, 0, 0] =
      (.error "Invalid wrapped key: too short", []) ∧
     PrivateKeyMethod.unwrap_master_key_bytes
        ⟨fun _ _ => [], fun _ _ => .ok [], fun _ _ => .ok []⟩
        (List.replicate 32 7) (List.replicate 59 0) =
      (.error "Invalid wrapped key: too short", [])) :=
  ⟨by decide, by decide,
   c9_minimum_length_rejection
     ⟨fun _ _ => .ok (), fun _ => .ok [], fun _ _ => .ok []⟩
     ⟨fun _ _ => [], fun _ _ => .ok [], fun _ _ => .ok []⟩
     "pw" (List.replicate 32 7) [0, 0, 0] (List.replicate 59 0)
     (by decide) (by decide)⟩

/-- C6: change_password is a pure re-wrap — whenever the old password
unwraps the password slot's blob, `change_password` succeeds, replaces
only the `wrapped_key` of that slot (every other slot field and every
other slot unchanged), leaves the `entries` table byte-for-byte unchanged,
and executes exactly one write statement, independent of the number of
records. -/
theorem c6_change_password_rewraps_only (db : DatabaseConnection)
    (old_password new_password : String) (salt nonce : Nat)
    (sid : Int) (blob : PwWrappedKey) (mk : Bytes)
    (hslot : queries.get_password_slot db = .ok (some (sid, .pass blob)))
    (hunwrap : PasswordMethod.unwrap_master_key old_password blob = .ok mk) :
    ∃ nb : PwWrappedKey,
      PasswordMethod.wrap_master_key new_password salt nonce mk = .ok nb ∧
      change_password db old_password new_password salt nonce =
        (.ok (), { db with conn := { db.conn with
          auth_slots := db.conn.auth_slots.map
            (fun s => if s.id = sid then { s with wrapped_key := .pass nb } else s),
          writes := db.conn.writes + 1 } }) ∧
      (change_password db old_password new_password salt nonce).2.conn.entries =
        db.conn.entries ∧
      (change_password db old_password new_password salt nonce).2.conn.writes =
        db.conn.writes + 1 := by
  refine ⟨_, wrap_master_key_ok new_password salt nonce mk, ?_, ?_, ?_⟩ <;>
    simp [change_password, hslot, PasswordMethod.unwrap_blob, hunwrap,
      wrap_master_key_ok, queries.update_auth_slot_wrapped_key]

/-- C6 witness: the re-wrap evaluated on the concrete vault `exDb0`
created with "oldpw123", rotating to "newpw456". -/
theorem c6_change_password_rewraps_only_witness :
    ∃ nb : PwWrappedKey,
      PasswordMethod.wrap_master_key "newpw456" 5 6 exMk = .ok nb ∧
      change_password exDb0 "oldpw123" "newpw456" 5 6 =
        (.ok (), { exDb0 with conn := { exDb0.conn with
          auth_slots := exDb0.conn.auth_slots.map
            (fun s => if s.id = 1 then { s with wrapped_key := .pass nb } else s),
          writes := exDb0.conn.writes + 1 } }) ∧
      (change_password exDb0 "oldpw123" "newpw456" 5 6).2.conn.entries =
        exDb0.conn.entries ∧
      (change_password exDb0 "oldpw123" "newpw456" 5 6).2.conn.writes =
        exDb0.conn.writes + 1 :=
  c6_change_password_rewraps_only exDb0 "oldpw123" "newpw456" 5 6 1 exBlob exMk
    (by decide) (by decide)

/-- C7: Last-slot guard — with at most one auth slot present, a removal
attempt that passes password verification fails with the message naming
the guard, the state is unchanged (no row deleted), and the slot count
afterwards equals the count before (in particular it stays 1 when it was
1). -/
theorem c7_last_slot_guard (db : DatabaseConnection) (slot_id : Int)
    (current_password : String) (sid : Int) (blob : PwWrappedKey) (mk : Bytes)
    (hslot : queries.get_password_slot db = .ok (some (sid, .pass blob)))
    (hunwrap : PasswordMethod.unwrap_master_key current_password blob = .ok mk)
    (hcount : db.conn.auth_slots.length ≤ 1) :
    remove_auth_method db slot_id current_password =
      (.error "Cannot remove the last authentication method. Add another method first.",
       db) ∧
    (remove_auth_method db slot_id current_password).2.conn.auth_slots.length =
      db.conn.auth_slots.length := by
  have hguard : (db.conn.auth_slots.length : Int) ≤ 1 := by exact_mod_cast hcount
  constructor <;>
    simp [remove_auth_method, hslot, PasswordMethod.unwrap_blob, hunwrap,
      queries.count_auth_slots, hguard]

/-- C7 witness: removing the only slot of the concrete vault `exDb0` with
the correct password. -/
theorem c7_last_slot_guard_witness :
    remove_auth_method exDb0 1 "oldpw123" =
      (.error "Cannot remove the last authentication method. Add another method first.",
       exDb0) ∧
    (remove_auth_method exDb0 1 "oldpw123").2.conn.auth_slots.length =
      exDb0.conn.auth_slots.length :=
  c7_last_slot_guard exDb0 1 "oldpw123" 1 exBlob exMk (by decide) (by decide)
    (by decide)

/-- C8: in the embedded terminal schema the `entries` DDL declares
`date TEXT PRIMARY KEY`, so a second record carrying an already present
date is rejected by `insert_entry` with a UNIQUE-constraint error and
nothing is stored: evaluated on the concrete vault `exDb1` that already
holds an entry dated 2024-02-01. -/
theorem c8_duplicate_date_rejected :
    exDb1.conn.entries.length = 1 ∧
    (queries.insert_entry exDb1 exEntry2 5 6).1 =
      .error "Failed to insert entry: UNIQUE constraint failed: entries.date" ∧
    (queries.insert_entry exDb1 exEntry2 5 6).2 = exDb1 := by
  refine ⟨by decide, by decide, by decide⟩

/-- C10 counterexample: the source guard is `new_password.len() < 8`,
which counts UTF-8 bytes, not characters — the 4-character password
"éééé" (8 UTF-8 bytes) is accepted by `register_password` on a session
with no password slot, so the claim "returns an error whenever the new
password has fewer than 8 characters" is false as stated. -/
theorem c10_short_password_accepted :
    ("éééé" : String).length = 4 ∧
    ("éééé" : String).utf8ByteSize = 8 ∧
    (register_password c10State "éééé" 1 2 "t1").1 = .ok () ∧
    (register_password c10State "éééé" 1 2 "t1").2.conn.auth_slots.length = 2 := by
  refine ⟨by decide, by decide, by decide, by decide⟩

/-- C10 (amended): `register_password` returns an error and leaves the
state unchanged whenever the new password has fewer than 8 UTF-8 bytes or
a password-type slot already exists; and whenever it succeeds, the
resulting state holds exactly one password-type slot. -/
theorem c10_register_password_guards (db : DatabaseConnection)
    (new_password : String) (salt nonce : Nat) (now : String) :
    ((new_password.utf8ByteSize < 8 ∨ queries.get_password_slot db ≠ .ok none) →
      ∃ msg, register_password db new_password salt nonce now = (.error msg, db)) ∧
    (∀ db2, register_password db new_password salt nonce now = (.ok (), db2) →
      (db2.conn.auth_slots.filter (fun s => s.slot_type = "password")).length = 1) := by
  constructor
  · intro h
    by_cases hshort : new_password.utf8ByteSize < 8
    · exact ⟨"Password must be at least 8 characters",
        by simp [register_password, hshort]⟩
    · have hslot : queries.get_password_slot db ≠ .ok none := h.resolve_left hshort
      cases hfind : db.conn.auth_slots.find? (fun s => s.slot_type = "password") with
      | none => exact absurd (by simp [queries.get_password_slot, hfind]) hslot
      | some s =>
        exact ⟨"A password method already exists. Use \'Change Password\' to update it.",
          by simp [register_password, hshort, queries.get_password_slot, hfind]⟩
  · intro db2 hok
    by_cases hshort : new_password.utf8ByteSize < 8
    · simp [register_password, hshort] at hok
    · cases hfind : db.conn.auth_slots.find? (fun s => s.slot_type = "password") with
      | some s =>
        simp [register_password, hshort, queries.get_password_slot, hfind] at hok
      | none =>
        have hnone : ∀ s ∈ db.conn.auth_slots, ¬ (s.slot_type = "password") := by
          simpa using List.find?_eq_none.mp hfind
        simp only [register_password, hshort, if_false, queries.get_password_slot,
          hfind, wrap_master_key_ok, queries.insert_auth_slot, Prod.mk.injEq] at hok
        rcases hok with ⟨-, rfl⟩
        have hnil : db.conn.auth_slots.filter
            (fun s => decide (s.slot_type = "password")) = [] := by
          rw [List.filter_eq_nil_iff]
          intro a ha
          simpa using hnone a ha
        simp [List.filter_append, hnil, List.filter]

/-- C10 witness: the amended guard evaluated at the concrete vault
`exDb0` with the 5-byte password "short". -/
theorem c10_register_password_guards_witness :
    (("short" : String).utf8ByteSize < 8 ∨
      queries.get_password_slot exDb0 ≠ .ok none) ∧
    ∃ msg, register_password exDb0 "short" 1 2 "t9" = (.error msg, exDb0) :=
  ⟨Or.inl (by decide),
   (c10_register_password_guards exDb0 "short" 1 2 "t9").1 (Or.inl (by decide))⟩

/-- C4 counterexample: for the v2→v3 step the source discards the
rollback result and formats one message, so a failing transform whose
rollback succeeded and one whose rollback failed are reported with the
same message — the claim that the two cases are never reported with the
same message is false. -/
theorem c4_v2v3_message_ignores_rollback :
    migrateV2V3FailureMessage "backup-2024-01-01.db"
        "Failed to decrypt title for 2024-01-02: aead error" (.ok ()) =
      migrateV2V3FailureMessage "backup-2024-01-01.db"
        "Failed to decrypt title for 2024-01-02: aead error"
        (.error "cannot rollback - no transaction is active") := rfl

/-- Heads of appended lists. -/
theorem headOpt_append (l l2 : List Char) :
    (l ++ l2).head? = l.head?.or l2.head? := by
  cases l <;> rfl

/-- C4 (amended): only the v1→v2 step distinguishes the rollback
outcomes in its failure message — for every backup path and transform
error, the rollback-succeeded and rollback-failed messages of
`migrate_v1_to_v2` differ, while `migrate_v2_to_v3` builds the same
message in both cases. -/
theorem c4_rollback_outcome_messages (backup_path e rollback_err : String) :
    migrateV1V2FailureMessage backup_path e (.ok ()) ≠
      migrateV1V2FailureMessage backup_path e (.error rollback_err) ∧
    migrateV2V3FailureMessage backup_path e (.ok ()) =
      migrateV2V3FailureMessage backup_path e (.error rollback_err) := by
  refine ⟨fun h => ?_, rfl⟩
  have h2 := congrArg (fun s => s.data.head?) h
  simp only [migrateV1V2FailureMessage, String.data_append, headOpt_append] at h2
  rw [show ("Migration v1→v2 failed (database unchanged, backup at ").data.head? =
        some 'M' from rfl,
      show ("CRITICAL: Migration v1→v2 failed AND rollback failed.\nOriginal error: ").data.head? =
        some 'C' from rfl] at h2
  simp only [Option.or] at h2
  exact absurd (Option.some.inj h2) (by decide)

/-- C4 witness: the amended statement evaluated at concrete strings. -/
theorem c4_rollback_outcome_messages_witness :
    migrateV1V2FailureMessage "b.db" "boom" (.ok ()) ≠
      migrateV1V2FailureMessage "b.db" "boom" (.error "rb") ∧
    migrateV2V3FailureMessage "b.db" "boom" (.ok ()) =
      migrateV2V3FailureMessage "b.db" "boom" (.error "rb") :=
  c4_rollback_outcome_messages "b.db" "boom" "rb"

/-- C3 counterexample: the v3→v4 transition mutates stored data (drops
the plaintext `entries_fts` table and bumps the generation) yet its trace
contains no backup event — on the concrete generation-3 vault `c3V3Db`
the step performs two database writes, no backup precedes them, and the
on-disk state changes. -/
theorem c3_v3_to_v4_performs_no_backup :
    (migrate_v3_to_v4 c3V3Db).2.2 = [.dbWrite, .dbWrite] ∧
    backupBeforeWrites (migrate_v3_to_v4 c3V3Db).2.2 = false ∧
    (migrate_v3_to_v4 c3V3Db).2.1.conn.schema_version = some 4 ∧
    (migrate_v3_to_v4 c3V3Db).2.1.conn ≠ c3V3Db.conn := by
  refine ⟨by decide, by decide, by decide, by decide⟩

/-- C3 (amended): the v1→v2 and v2→v3 steps write the backup before any
database mutation and abort with no change when the backup copy fails;
the v3→v4 step performs no backup at all (see the counterexample). -/
theorem c3_backup_precedes_mutation (db : DatabaseConnection)
    (backup_path : String) (seed salt nonce rng : Nat) (password now : String) :
    backupBeforeWrites (migrate_v1_to_v2 db true backup_path).2.2 = true ∧
    migrate_v1_to_v2 db false backup_path =
      (.error "Failed to create pre-migration backup: copy failed", db, []) ∧
    backupBeforeWrites
      (migrate_v2_to_v3 db true backup_path seed salt nonce rng password now).2.2 = true ∧
    migrate_v2_to_v3 db false backup_path seed salt nonce rng password now =
      (.error "Failed to create pre-migration backup: copy failed", db.conn, []) := by
  refine ⟨?_, by simp [migrate_v1_to_v2], ?_, by simp [migrate_v2_to_v3]⟩
  · simp [migrate_v1_to_v2, backupBeforeWrites]
  · simp only [migrate_v2_to_v3]
    rw [if_neg (by decide), from_slice_replicate]
    cases hinner : migrate_v2_to_v3_inner db.conn db.encryption_key
        (List.replicate 32 seed) password salt nonce rng now with
    | ok s3 => simp [backupBeforeWrites]
    | error e => simp [backupBeforeWrites]

/-- C3 amended witness: evaluated at the concrete generation-2 vault
`c2BadDb`. -/
theorem c3_backup_precedes_mutation_witness :
    backupBeforeWrites (migrate_v1_to_v2 c2BadDb true "b.db").2.2 = true ∧
    migrate_v1_to_v2 c2BadDb false "b.db" =
      (.error "Failed to create pre-migration backup: copy failed", c2BadDb, []) ∧
    backupBeforeWrites
      (migrate_v2_to_v3 c2BadDb true "b.db" 0 1 2 3 "pw" "t").2.2 = true ∧
    migrate_v2_to_v3 c2BadDb false "b.db" 0 1 2 3 "pw" "t" =
      (.error "Failed to create pre-migration backup: copy failed", c2BadDb.conn, []) :=
  c3_backup_precedes_mutation c2BadDb "b.db" 0 1 2 3 "pw" "t"

/-- Re-encrypting entries leaves the multiset of stored dates unchanged,
so duplicate-freeness of the date column is preserved. -/
theorem nodup_map_date_update (l : List Entry) (g : Entry → Entry)
    (hg : ∀ a, (g a).date = a.date) (h : (l.map Entry.date).Nodup) :
    ((l.map g).map Entry.date).Nodup := by
  rw [List.map_map]
  have hmap : l.map (Entry.date ∘ g) = l.map Entry.date :=
    List.map_congr_left (fun a _ => hg a)
  rw [hmap]
  exact h

/-- If some stored entry fails to decrypt under the pre-migration key and
its date is among the dates still to process, the re-encryption loop of
the v2→v3 migration aborts with an error.  The date lists are assumed
duplicate-free, as guaranteed by the v1/v2 `date TEXT PRIMARY KEY`
DDL. -/
theorem migrate_loop_error_of_bad_entry (old_key master_key : cipher.Key)
    (rng : Nat) :
    ∀ (dates : List String) (s : DbState),
      dates.Nodup →
      (s.entries.map Entry.date).Nodup →
      (∃ e ∈ s.entries, e.date ∈ dates ∧
        (decrypt_fails old_key e.title_encrypted = true ∨
         decrypt_fails old_key e.text_encrypted = true)) →
      ∃ msg, migrate_v2_to_v3_loop old_key master_key rng dates s = .error msg := by
  intro dates
  induction dates with
  | nil =>
    rintro s _ _ ⟨e, _, hmem, _⟩
    cases hmem
  | cons date rest ih =>
    rintro s hnd hend ⟨e, he, hdate, hbad⟩
    obtain ⟨hnotin, hndrest⟩ := List.nodup_cons.mp hnd
    simp only [migrate_v2_to_v3_loop]
    split
    · exact ⟨_, rfl⟩
    · rename_i e0 hf
      have he0mem : e0 ∈ s.entries := List.mem_of_find?_eq_some hf
      have he0date : e0.date = date := by simpa using List.find?_some hf
      split
      · exact ⟨_, rfl⟩
      · rename_i title_plain hdec1
        split
        · exact ⟨_, rfl⟩
        · rename_i text_plain hdec2
          have hdate_rest : e.date ∈ rest := by
            rcases List.mem_cons.mp hdate with heq | hrest
            · exfalso
              have hee0 : e = e0 :=
                List.inj_on_of_nodup_map hend he he0mem (by rw [heq, he0date])
              rcases hbad with hb | hb
              · rw [hee0] at hb
                simp [decrypt_fails, hdec1] at hb
              · rw [hee0] at hb
                simp [decrypt_fails, hdec2] at hb
            · exact hrest
          have hne : e.date ≠ date := fun heq => hnotin (heq ▸ hdate_rest)
          exact ih _ hndrest
            (nodup_map_date_update _ _
              (fun a => by by_cases hda : a.date = date <;> simp [hda]) hend)
            ⟨e, List.mem_map.mpr ⟨e, he, by simp [hne]⟩, hdate_rest, hbad⟩

/-- C2: Migration atomicity — for every generation-2 vault in which some
record fails to decrypt under the pre-migration key (while others may
succeed), and whose stored dates are duplicate-free as the v1/v2 primary
key guarantees, the v2→v3 step returns an error, the on-disk state after
the call is exactly the pre-migration state (the transaction rolled
back), hence the stored generation is unchanged and every record that was
decryptable with the pre-migration key is still stored unmodified and
decryptable with it. -/
theorem c2_migration_atomicity (db : DatabaseConnection) (backup_path : String)
    (seed salt nonce rng : Nat) (password now : String)
    (hnd : (db.conn.entries.map Entry.date).Nodup)
    (hbad : ∃ e ∈ db.conn.entries,
      decrypt_fails db.encryption_key e.title_encrypted = true ∨
      decrypt_fails db.encryption_key e.text_encrypted = true) :
    (∃ msg, migrate_v2_to_v3 db true backup_path seed salt nonce rng password now =
      (.error msg, db.conn, [.backupWrite])) ∧
    (migrate_v2_to_v3 db true backup_path seed salt nonce rng password now).2.1.schema_version
      = db.conn.schema_version ∧
    (migrate_v2_to_v3 db true backup_path seed salt nonce rng password now).2.1.entries
      = db.conn.entries := by
  obtain ⟨e, he, hb⟩ := hbad
  have hloop := migrate_loop_error_of_bad_entry db.encryption_key
      ⟨List.replicate 32 seed⟩ rng
      (List.mergeSort (db.conn.entries.map (fun e2 => e2.date))
        (fun a b => decide (a ≤ b)))
      { db.conn with writes := db.conn.writes + 1 }
      ((List.mergeSort_perm _ _).nodup_iff.mpr hnd) hnd
      ⟨e, he,
       (List.mergeSort_perm _ _).mem_iff.mpr (List.mem_map_of_mem _ he), hb⟩
  obtain ⟨msg, hloopmsg⟩ := hloop
  have hinner : migrate_v2_to_v3_inner db.conn db.encryption_key
      (List.replicate 32 seed) password salt nonce rng now = .error msg := by
    simp only [migrate_v2_to_v3_inner, from_slice_replicate]
    rw [hloopmsg]
  have houter : migrate_v2_to_v3 db true backup_path seed salt nonce rng password now =
      (.error (migrateV2V3FailureMessage backup_path msg (.ok ())), db.conn,
       [.backupWrite]) := by
    simp only [migrate_v2_to_v3]
    rw [if_neg (by decide), from_slice_replicate, hinner]
  exact ⟨⟨_, houter⟩, by rw [houter], by rw [houter]⟩

/-- C2 witness: the v2→v3 step evaluated on the concrete generation-2
vault `c2BadDb` holding one decryptable record and one record encrypted
under a foreign key. -/
theorem c2_migration_atomicity_witness :
    (c2BadDb.conn.entries.map Entry.date).Nodup ∧
    (∃ e ∈ c2BadDb.conn.entries,
      decrypt_fails c2BadDb.encryption_key e.title_encrypted = true ∨
      decrypt_fails c2BadDb.encryption_key e.text_encrypted = true) ∧
    ((∃ msg, migrate_v2_to_v3 c2BadDb true "b.db" 0 1 2 3 "pw" "t" =
        (.error msg, c2BadDb.conn, [.backupWrite])) ∧
     (migrate_v2_to_v3 c2BadDb true "b.db" 0 1 2 3 "pw" "t").2.1.schema_version =
       c2BadDb.conn.schema_version ∧
     (migrate_v2_to_v3 c2BadDb true "b.db" 0 1 2 3 "pw" "t").2.1.entries =
       c2BadDb.conn.entries) :=
  ⟨by decide, by decide,
   c2_migration_atomicity c2BadDb "b.db" 0 1 2 3 "pw" "t" (by decide) (by decide)⟩

/-- Source `create_database` always succeeds and yields the v4 state with a
single password slot wrapping the fresh master key. -/
theorem create_database_ok (p : String) (seed salt nonce : Nat) (now : String) :
    create_database p seed salt nonce now = .ok
      ⟨{ schema_version := some SCHEMA_VERSION, metadata := [], entries := [],
         entries_fts := none,
         auth_slots := [⟨1, "password", "Password", none,
           .pass ⟨pwd.hash_password p salt,
                  cipher.encrypt
                    ⟨pwd.derive_key_from_phc_hash (pwd.hash_password p salt)⟩
                    nonce (List.replicate 32 seed)⟩,
           now, none⟩],
         next_slot_id := 2, writes := 3 },
       ⟨List.replicate 32 seed⟩⟩ := by
  simp [create_database, create_schema, emptyDbState, from_slice_replicate,
    wrap_master_key_ok, cipher.Key.from_slice, cipher.KEY_SIZE]

/-- C1: End-to-end password change — for every pair of distinct passwords
`p1 ≠ p2` and every record, after creating a vault with `p1`, inserting
the record, and running `change_password(p1, p2)` (which succeeds),
opening the vault with `p1` fails with "Incorrect password", and opening
with `p2` succeeds and reading the record back from the reopened session
returns exactly the inserted plaintext. -/
theorem c1_end_to_end (p1 p2 title text date now0 now1 now2 now3 bp : String)
    (wc : Int) (seed salt1 nonce1 en1 en2 salt2 nonce2 seed2 salt3 nonce3 rng : Nat)
    (hne : p1 ≠ p2) :
    ∃ db0 db1 db2,
      create_database p1 seed salt1 nonce1 now0 = .ok db0 ∧
      (queries.insert_entry db0 ⟨date, title, text, wc, now1, now1⟩ en1 en2).2 = db1 ∧
      (change_password db1 p1 p2 salt2 nonce2).1 = .ok () ∧
      (change_password db1 p1 p2 salt2 nonce2).2 = db2 ∧
      (open_database db2.conn p1 true bp seed2 salt3 nonce3 rng now2).1 =
        .error "Incorrect password" ∧
      ((open_database db2.conn p2 true bp seed2 salt3 nonce3 rng now3).1.bind
        (fun db3 => queries.get_entry db3 date)) =
        .ok (some ⟨date, title, text, wc, now1, now1⟩) := by
  have h21 : ¬ (p2 = p1) := fun h => hne h.symm
  refine ⟨_, _, _, create_database_ok p1 seed salt1 nonce1 now0, rfl, ?_, rfl, ?_, ?_⟩ <;>
    simp [queries.insert_entry, queries.update_fts_index, change_password,
      queries.get_password_slot, PasswordMethod.unwrap_blob,
      PasswordMethod.unwrap_master_key, wrap_master_key_ok,
      queries.update_auth_slot_wrapped_key, cipher.encrypt, cipher.decrypt,
      List.find?, open_database, open_v3_with_password, migrate_v3_to_v4,
      SCHEMA_VERSION, Option.getD, pwd.verify_password, pwd.hash_password,
      pwd.derive_key_from_phc_hash, from_slice_derive, from_slice_replicate,
      cipher.Key.from_slice, cipher.KEY_SIZE, Except.bind, queries.get_entry,
      bytesToString_strBytes, h21]

/-- C1 witness: the end-to-end scenario evaluated at the concrete
passwords "p1"/"p2" and a concrete record. -/
theorem c1_end_to_end_witness :
    ("p1" : String) ≠ "p2" ∧
    ∃ db0 db1 db2,
      create_database "p1" 0 1 2 "t0" = .ok db0 ∧
      (queries.insert_entry db0 ⟨"2024-01-01", "Title", "Body", 1, "t1", "t1"⟩ 3 4).2 = db1 ∧
      (change_password db1 "p1" "p2" 5 6).1 = .ok () ∧
      (change_password db1 "p1" "p2" 5 6).2 = db2 ∧
      (open_database db2.conn "p1" true "b.db" 7 8 9 10 "t2").1 =
        .error "Incorrect password" ∧
      ((open_database db2.conn "p2" true "b.db" 7 8 9 10 "t3").1.bind
        (fun db3 => queries.get_entry db3 "2024-01-01")) =
        .ok (some ⟨"2024-01-01", "Title", "Body", 1, "t1", "t1"⟩) :=
  ⟨by decide,
   c1_end_to_end "p1" "p2" "Title" "Body" "2024-01-01" "t0" "t1" "t2" "t3" "b.db"
     1 0 1 2 3 4 5 6 7 8 9 10 (by decide)⟩

end MiniDiarium
